import Mathlib

/-!
Shallow embedding of `src/main.rs` of the timeular-webhooks-example
repository: the serde-derived JSON decoders/encoders for the webhook
payload types, the outbound startup sequence of `main` (sign-in, event
catalog fetch, the two subscription calls, subscription listing), and the
warp route composition for the inbound HTTP surface.

JSON values are modelled by an inductive `Json`; serde `Deserialize`
derives become `Option`-returning decoders that look fields up by their
on-the-wire names (camelCase where the Rust struct carries
`#[serde(rename_all = "camelCase")]`, the raw field name otherwise),
ignore unknown fields, and treat `Option` fields as `none` when the field
is absent or `null`.  The outbound calls of `main` are embedded as pure
functions over an abstract provider `Request → Option HttpResponse`
(`none` modelling a transport failure), each returning the list of
requests it issued together with its `Except` result; `main`'s `?`
operators become explicit short-circuiting.
-/

namespace Timeular

/-- JSON values (integers suffice for the numbers this program touches). -/
inductive Json where
  | null : Json
  | bool : Bool → Json
  | num : Int → Json
  | str : String → Json
  | arr : List Json → Json
  | obj : List (String × Json) → Json

/-- Object field access, by wire name. -/
def Json.getField : Json → String → Option Json
  | .obj fields, k => fields.lookup k
  | _, _ => none

def Json.asObj : Json → Option (List (String × Json))
  | .obj fields => some fields
  | _ => none

def Json.asStr : Json → Option String
  | .str s => some s
  | _ => none

def Json.asInt : Json → Option Int
  | .num n => some n
  | _ => none

/-- A required string field (serde: missing or non-string fails). -/
def decodeStrField (fields : List (String × Json)) (k : String) : Option String :=
  match fields.lookup k with
  | some (.str s) => some s
  | _ => none

/-- A required i64 field. -/
def decodeIntField (fields : List (String × Json)) (k : String) : Option Int :=
  match fields.lookup k with
  | some (.num n) => some n
  | _ => none

/-- An `Option` field: absent or `null` decodes to `none`; any other value
must decode with `dec`. -/
def decodeOptField {α : Type} (fields : List (String × Json)) (k : String)
    (dec : Json → Option α) : Option (Option α) :=
  match fields.lookup k with
  | none => some none
  | some Json.null => some none
  | some v => (dec v).map some

/-- Element-wise sequence decoding (serde `Vec`): every element must
decode, in order. -/
def decodeList {α : Type} (dec : Json → Option α) : List Json → Option (List α)
  | [] => some []
  | x :: xs =>
    match dec x with
    | none => none
    | some a => (decodeList dec xs).map (a :: ·)

/-- A required `Vec` field: must be a JSON array, every element decoding. -/
def decodeArrField {α : Type} (fields : List (String × Json)) (k : String)
    (dec : Json → Option α) : Option (List α) :=
  match fields.lookup k with
  | some (.arr xs) => decodeList dec xs
  | _ => none

/-- `struct TagOrMention` (rename_all = camelCase). -/
structure TagOrMention where
  id : Int
  key : String
  label : String
  scope : String
  space_id : String
deriving DecidableEq

def decodeTagOrMention (j : Json) : Option TagOrMention := do
  let fields ← j.asObj
  let id ← decodeIntField fields "id"
  let key ← decodeStrField fields "key"
  let label ← decodeStrField fields "label"
  let scope ← decodeStrField fields "scope"
  let space_id ← decodeStrField fields "spaceId"
  pure ⟨id, key, label, scope, space_id⟩

/-- `struct Note` (rename_all = camelCase). -/
structure Note where
  text : Option String
  tags : List TagOrMention
  mentions : List TagOrMention
deriving DecidableEq

def decodeNote (j : Json) : Option Note := do
  let fields ← j.asObj
  let text ← decodeOptField fields "text" Json.asStr
  let tags ← decodeArrField fields "tags" decodeTagOrMention
  let mentions ← decodeArrField fields "mentions" decodeTagOrMention
  pure ⟨text, tags, mentions⟩

/-- `struct Activity` (rename_all = camelCase). -/
structure Activity where
  id : String
  name : String
  color : String
  integration : String
  space_id : String
  device_side : Option Int
deriving DecidableEq

def decodeActivity (j : Json) : Option Activity := do
  let fields ← j.asObj
  let id ← decodeStrField fields "id"
  let name ← decodeStrField fields "name"
  let color ← decodeStrField fields "color"
  let integration ← decodeStrField fields "integration"
  let space_id ← decodeStrField fields "spaceId"
  let device_side ← decodeOptField fields "deviceSide" Json.asInt
  pure ⟨id, name, color, integration, space_id, device_side⟩

/-- `struct Tracking` (rename_all = camelCase). -/
structure Tracking where
  id : Int
  activity : Activity
  started_at : String
  note : Note
deriving DecidableEq

def decodeTracking (j : Json) : Option Tracking := do
  let fields ← j.asObj
  let id ← decodeIntField fields "id"
  let activity ← (fields.lookup "activity").bind decodeActivity
  let started_at ← decodeStrField fields "startedAt"
  let note ← (fields.lookup "note").bind decodeNote
  pure ⟨id, activity, started_at, note⟩

/-- `struct TrackingStartedData` (rename_all = camelCase). -/
structure TrackingStartedData where
  current_tracking : Tracking
deriving DecidableEq

def decodeTrackingStartedData (j : Json) : Option TrackingStartedData := do
  let fields ← j.asObj
  let current_tracking ← (fields.lookup "currentTracking").bind decodeTracking
  pure ⟨current_tracking⟩

/-- `struct TrackingStartedPayload` (rename_all = camelCase). -/
structure TrackingStartedPayload where
  user_id : String
  event_type : String
  data : TrackingStartedData
deriving DecidableEq

def decodeTrackingStartedPayload (j : Json) : Option TrackingStartedPayload := do
  let fields ← j.asObj
  let user_id ← decodeStrField fields "userId"
  let event_type ← decodeStrField fields "eventType"
  let data ← (fields.lookup "data").bind decodeTrackingStartedData
  pure ⟨user_id, event_type, data⟩

/-- `struct Duration` (rename_all = camelCase). -/
structure Duration where
  started_at : String
  stopped_at : String
deriving DecidableEq

def decodeDuration (j : Json) : Option Duration := do
  let fields ← j.asObj
  let started_at ← decodeStrField fields "startedAt"
  let stopped_at ← decodeStrField fields "stoppedAt"
  pure ⟨started_at, stopped_at⟩

/-- `struct TimeEntry` (rename_all = camelCase). -/
structure TimeEntry where
  id : String
  activity : Activity
  duration : Duration
  note : Note
deriving DecidableEq

def decodeTimeEntry (j : Json) : Option TimeEntry := do
  let fields ← j.asObj
  let id ← decodeStrField fields "id"
  let activity ← (fields.lookup "activity").bind decodeActivity
  let duration ← (fields.lookup "duration").bind decodeDuration
  let note ← (fields.lookup "note").bind decodeNote
  pure ⟨id, activity, duration, note⟩

/-- `struct TrackingStoppedData` (rename_all = camelCase): the
`new_time_entry` field is `Option<TimeEntry>`. -/
structure TrackingStoppedData where
  new_time_entry : Option TimeEntry
deriving DecidableEq

def decodeTrackingStoppedData (j : Json) : Option TrackingStoppedData := do
  let fields ← j.asObj
  let new_time_entry ← decodeOptField fields "newTimeEntry" decodeTimeEntry
  pure ⟨new_time_entry⟩

/-- `struct TrackingStoppedPayload` (rename_all = camelCase). -/
structure TrackingStoppedPayload where
  user_id : String
  event_type : String
  data : TrackingStoppedData
deriving DecidableEq

def decodeTrackingStoppedPayload (j : Json) : Option TrackingStoppedPayload := do
  let fields ← j.asObj
  let user_id ← decodeStrField fields "userId"
  let event_type ← decodeStrField fields "eventType"
  let data ← (fields.lookup "data").bind decodeTrackingStoppedData
  pure ⟨user_id, event_type, data⟩

/-! ## Outbound wire structs -/

/-- `struct SignInRequest` (rename_all = camelCase), serialized in field
order with camelCase wire names. -/
structure SignInRequest where
  api_key : String
  api_secret : String
deriving DecidableEq

def encodeSignInRequest (r : SignInRequest) : Json :=
  .obj [("apiKey", .str r.api_key), ("apiSecret", .str r.api_secret)]

/-- `struct SignInResponse` (no rename attribute). -/
structure SignInResponse where
  token : String
deriving DecidableEq

def decodeSignInResponse (j : Json) : Option SignInResponse := do
  let fields ← j.asObj
  let token ← decodeStrField fields "token"
  pure ⟨token⟩

/-- `struct EventsResponse` (no rename attribute). -/
structure EventsResponse where
  events : List String
deriving DecidableEq

def decodeEventsResponse (j : Json) : Option EventsResponse := do
  let fields ← j.asObj
  let events ← decodeArrField fields "events" Json.asStr
  pure ⟨events⟩

/-- `struct EventRequest`: NO `rename_all` attribute in the source, so the
wire names are the raw Rust field names `event` and `target_url`. -/
structure EventRequest where
  event : String
  target_url : String
deriving DecidableEq

def encodeEventRequest (r : EventRequest) : Json :=
  .obj [("event", .str r.event), ("target_url", .str r.target_url)]

/-- `struct Subscription`: NO `rename_all` attribute, so the decoder looks
up the raw field names `id`, `event`, `target_url`. -/
structure Subscription where
  id : String
  event : String
  target_url : String
deriving DecidableEq

def decodeSubscription (j : Json) : Option Subscription := do
  let fields ← j.asObj
  let id ← decodeStrField fields "id"
  let event ← decodeStrField fields "event"
  let target_url ← decodeStrField fields "target_url"
  pure ⟨id, event, target_url⟩

/-- `struct SubscriptionsResponse` (no rename attribute). -/
structure SubscriptionsResponse where
  subscriptions : List Subscription
deriving DecidableEq

def decodeSubscriptionsResponse (j : Json) : Option SubscriptionsResponse := do
  let fields ← j.asObj
  let subscriptions ← decodeArrField fields "subscriptions" decodeSubscription
  pure ⟨subscriptions⟩

/-! ## The outbound HTTP layer and the startup sequence of `main` -/

inductive Method where
  | GET
  | POST
deriving DecidableEq

/-- An outbound HTTP request as assembled by the reqwest calls in the
source: method, full URL, optional `Authorization` header, optional JSON
body. -/
structure Request where
  method : Method
  reqUrl : String
  authHeader : Option String
  body : Option Json

structure HttpResponse where
  status : Nat
  body : Json

/-- The provider's behaviour: `none` models a transport failure of
`send()` (reqwest's `send` errors only on transport problems, never on a
non-2xx status); `some resp` is a delivered HTTP response of any status. -/
abbrev Provider := Request → Option HttpResponse

/-- `const BASE_URL`. -/
def BASE_URL : String := "https://api.timeular.com/api/v3"

/-- `fn url`. -/
def url (path : String) : String := BASE_URL ++ path

/-- `fn auth`. -/
def auth (token : String) : String := "Bearer " ++ token

/-- Errors the startup path can produce: a reqwest transport failure of
`send()`, or a `.json::<T>()` body-decode failure. -/
inductive Error where
  | transport
  | decode
deriving DecidableEq

/-- The request assembled by `fn sign_in`: POST `/developer/sign-in`,
no bearer header, camelCase-serialized credentials as body. -/
def signInReq (api_key api_secret : String) : Request :=
  ⟨.POST, url "/developer/sign-in", none,
   some (encodeSignInRequest ⟨api_key, api_secret⟩)⟩

/-- `fn sign_in`: POST the credentials, decode `SignInResponse`, return
the token.  Returns the list of issued requests alongside the result. -/
def sign_in (provider : Provider) (api_key api_secret : String) :
    List Request × Except Error String :=
  match provider (signInReq api_key api_secret) with
  | none => ([signInReq api_key api_secret], .error .transport)
  | some resp =>
    match decodeSignInResponse resp.body with
    | none => ([signInReq api_key api_secret], .error .decode)
    | some r => ([signInReq api_key api_secret], .ok r.token)

/-- The request assembled by `fn fetch_events`. -/
def fetchEventsReq (token : String) : Request :=
  ⟨.GET, url "/webhooks/event", some (auth token), none⟩

/-- `fn fetch_events`: GET `/webhooks/event` with the bearer header,
decode `EventsResponse`, return the events list. -/
def fetch_events (provider : Provider) (token : String) :
    List Request × Except Error (List String) :=
  match provider (fetchEventsReq token) with
  | none => ([fetchEventsReq token], .error .transport)
  | some resp =>
    match decodeEventsResponse resp.body with
    | none => ([fetchEventsReq token], .error .decode)
    | some r => ([fetchEventsReq token], .ok r.events)

/-- The createSubscription request assembled by
`fn subscribe_to_started_tracking`: body
`{event: "trackingStarted", target_url: public_url ++ "/started-tracking"}`. -/
def startedCreateReq (token public_url : String) : Request :=
  ⟨.POST, url "/webhooks/subscription", some (auth token),
   some (encodeEventRequest ⟨"trackingStarted", public_url ++ "/started-tracking"⟩)⟩

/-- `fn subscribe_to_started_tracking`: POST the binding.  The response is
bound to `resp` and then dropped: its status and body are never inspected,
so any delivered response yields `Ok(())`. -/
def subscribe_to_started_tracking (provider : Provider) (token public_url : String) :
    List Request × Except Error Unit :=
  match provider (startedCreateReq token public_url) with
  | none => ([startedCreateReq token public_url], .error .transport)
  | some _ => ([startedCreateReq token public_url], .ok ())

/-- The createSubscription request assembled by
`fn subscribe_to_stopped_tracking`. -/
def stoppedCreateReq (token public_url : String) : Request :=
  ⟨.POST, url "/webhooks/subscription", some (auth token),
   some (encodeEventRequest ⟨"trackingStopped", public_url ++ "/stopped-tracking"⟩)⟩

/-- `fn subscribe_to_stopped_tracking`: same shape for the
`trackingStopped` binding; the response is likewise dropped. -/
def subscribe_to_stopped_tracking (provider : Provider) (token public_url : String) :
    List Request × Except Error Unit :=
  match provider (stoppedCreateReq token public_url) with
  | none => ([stoppedCreateReq token public_url], .error .transport)
  | some _ => ([stoppedCreateReq token public_url], .ok ())

/-- The request assembled by `fn list_subscriptions`. -/
def listSubsReq (token : String) : Request :=
  ⟨.GET, url "/webhooks/subscription", some (auth token), none⟩

/-- `fn list_subscriptions`: GET `/webhooks/subscription`, decode
`SubscriptionsResponse`, return its `subscriptions`. -/
def list_subscriptions (provider : Provider) (token : String) :
    List Request × Except Error (List Subscription) :=
  match provider (listSubsReq token) with
  | none => ([listSubsReq token], .error .transport)
  | some resp =>
    match decodeSubscriptionsResponse resp.body with
    | none => ([listSubsReq token], .error .decode)
    | some r => ([listSubsReq token], .ok r.subscriptions)

/-- The startup sequence of `fn main` before the server starts: sign in,
fetch the available events (only printed), subscribe to started tracking,
subscribe to stopped tracking, then list subscriptions (only printed).
Each `?` in the source becomes a short-circuit; the trace of issued
outbound requests is accumulated in order. -/
def mainStartup (provider : Provider) (public_url api_key api_secret : String) :
    List Request × Except Error (List Subscription) :=
  let (t1, r1) := sign_in provider api_key api_secret
  match r1 with
  | .error e => (t1, .error e)
  | .ok token =>
    let (t2, r2) := fetch_events provider token
    match r2 with
    | .error e => (t1 ++ t2, .error e)
    | .ok _events =>
      let (t3, r3) := subscribe_to_started_tracking provider token public_url
      match r3 with
      | .error e => (t1 ++ t2 ++ t3, .error e)
      | .ok _ =>
        let (t4, r4) := subscribe_to_stopped_tracking provider token public_url
        match r4 with
        | .error e => (t1 ++ t2 ++ t3 ++ t4, .error e)
        | .ok _ =>
          let (t5, r5) := list_subscriptions provider token
          (t1 ++ t2 ++ t3 ++ t4 ++ t5, r5)

/-- A request counts as a createSubscription call when it is a POST to the
subscription endpoint. -/
def isCreateCall (r : Request) : Bool :=
  r.method == .POST && r.reqUrl == url "/webhooks/subscription"

/-- Number of createSubscription calls in a request trace. -/
def countCreates (trace : List Request) : Nat :=
  trace.countP isCreateCall

/-! ## Trace lemmas: each outbound helper issues exactly its one request -/

theorem sign_in_trace (provider : Provider) (k s : String) :
    (sign_in provider k s).1 = [signInReq k s] := by
  unfold sign_in
  cases provider (signInReq k s) with
  | none => rfl
  | some resp =>
    dsimp only
    cases decodeSignInResponse resp.body <;> rfl

theorem fetch_events_trace (provider : Provider) (t : String) :
    (fetch_events provider t).1 = [fetchEventsReq t] := by
  unfold fetch_events
  cases provider (fetchEventsReq t) with
  | none => rfl
  | some resp =>
    dsimp only
    cases decodeEventsResponse resp.body <;> rfl

theorem subscribe_started_trace (provider : Provider) (t pu : String) :
    (subscribe_to_started_tracking provider t pu).1 = [startedCreateReq t pu] := by
  unfold subscribe_to_started_tracking
  cases provider (startedCreateReq t pu) <;> rfl

theorem subscribe_stopped_trace (provider : Provider) (t pu : String) :
    (subscribe_to_stopped_tracking provider t pu).1 = [stoppedCreateReq t pu] := by
  unfold subscribe_to_stopped_tracking
  cases provider (stoppedCreateReq t pu) <;> rfl

theorem list_subscriptions_trace (provider : Provider) (t : String) :
    (list_subscriptions provider t).1 = [listSubsReq t] := by
  unfold list_subscriptions
  cases provider (listSubsReq t) with
  | none => rfl
  | some resp =>
    dsimp only
    cases decodeSubscriptionsResponse resp.body <;> rfl

/-! ## The inbound HTTP surface (warp route composition)

`main` builds `started_tracking_route.or(stopped_tracking_route).or(health_route)`
and serves it.  Each warp filter either matches and produces a reply,
rejects because the JSON body failed to deserialize into the expected
payload type (`warp::body::json` — recovered by warp's default rejection
handler as a 400 Bad Request), or rejects because path/method did not
match (falling through `or`; an unmatched composition yields 404). -/

inductive InMethod where
  | GET
  | POST
  | PUT
  | DELETE
  | HEAD
  | PATCH
  | OPTIONS
deriving DecidableEq

/-- An inbound HTTP request: the split path, the method, and the body as
parsed JSON (`none` when the body is not valid JSON at all — for the
`body::json` filter this is the same rejection as a shape mismatch). -/
structure InRequest where
  path : List String
  method : InMethod
  body : Option Json

structure ServeResponse where
  status : Nat
  body : String
deriving DecidableEq

/-- The outcome of trying one warp filter on a request. -/
inductive RouteTry where
  | matched (resp : ServeResponse)
  | decodeReject
  | noMatch
deriving DecidableEq

/-- `fn health_handler`: replies `"OK"` (status 200). -/
def health_handler : ServeResponse := ⟨200, "OK"⟩

/-- `fn started_tracking_handler`: prints the payload and replies `"OK"`
(status 200). -/
def started_tracking_handler (_body : TrackingStartedPayload) : ServeResponse :=
  ⟨200, "OK"⟩

/-- `fn stopped_tracking_handler`: prints the payload and replies `"OK"`
(status 200). -/
def stopped_tracking_handler (_body : TrackingStoppedPayload) : ServeResponse :=
  ⟨200, "OK"⟩

/-- `warp::path!("started-tracking").and(warp::post()).and(warp::body::json()).and_then(started_tracking_handler)`:
the handler runs exactly when path and method match and the body decodes
as `TrackingStartedPayload`. -/
def started_tracking_route (req : InRequest) : RouteTry :=
  if req.path = ["started-tracking"] ∧ req.method = .POST then
    match req.body.bind decodeTrackingStartedPayload with
    | some p => .matched (started_tracking_handler p)
    | none => .decodeReject
  else .noMatch

/-- The stopped-tracking route, decoding `TrackingStoppedPayload`. -/
def stopped_tracking_route (req : InRequest) : RouteTry :=
  if req.path = ["stopped-tracking"] ∧ req.method = .POST then
    match req.body.bind decodeTrackingStoppedPayload with
    | some p => .matched (stopped_tracking_handler p)
    | none => .decodeReject
  else .noMatch

/-- `warp::path!("health").and_then(health_handler)`: a path filter with
NO method filter and no body filter — it matches any method. -/
def health_route (req : InRequest) : RouteTry :=
  if req.path = ["health"] then .matched health_handler else .noMatch

/-- The served composition
`started_tracking_route.or(stopped_tracking_route).or(health_route)`:
`or` falls through on any rejection; when every branch rejects, a body
deserialize rejection is recovered as 400 Bad Request by warp's default
rejection handling, otherwise 404 Not Found. -/
def serve (req : InRequest) : ServeResponse :=
  match started_tracking_route req with
  | .matched r => r
  | s1 =>
    match stopped_tracking_route req with
    | .matched r => r
    | s2 =>
      match health_route req with
      | .matched r => r
      | s3 =>
        if s1 = .decodeReject ∨ s2 = .decodeReject ∨ s3 = .decodeReject then
          ⟨400, "Bad Request"⟩
        else
          ⟨404, "Not Found"⟩

/-! ## Concrete fixtures -/

/-- A subscriptions listing in which both desired bindings (matched on
both event kind and target URL for public base `https://pub`) are already
present. -/
def bothPresentSubsBody : Json :=
  .obj [("subscriptions", .arr
    [.obj [("id", .str "1"), ("event", .str "trackingStarted"),
           ("target_url", .str "https://pub/started-tracking")],
     .obj [("id", .str "2"), ("event", .str "trackingStopped"),
           ("target_url", .str "https://pub/stopped-tracking")]])]

/-- A provider on which every outbound call succeeds and whose
subscription listing already contains both desired bindings. -/
def alreadySubscribedProvider : Provider := fun req =>
  match req.method with
  | .POST =>
    if req.reqUrl = url "/developer/sign-in" then
      some ⟨200, .obj [("token", .str "tok")]⟩
    else if req.reqUrl = url "/webhooks/subscription" then
      some ⟨200, .obj []⟩
    else none
  | .GET =>
    if req.reqUrl = url "/webhooks/event" then
      some ⟨200, .obj [("events", .arr [.str "trackingStarted", .str "trackingStopped"])]⟩
    else if req.reqUrl = url "/webhooks/subscription" then
      some ⟨200, bothPresentSubsBody⟩
    else none

/-! ## C1 -/

/-- C1 counterexample: reconciliation does not happen.  On a provider
whose subscription listing already contains both desired bindings (same
event kind AND same target URL) and with no external changes, a startup
run — hence also the second of two identical runs — still issues 2
createSubscription calls, not 0: the already-present bindings are
re-created.  `main` subscribes unconditionally and only lists
subscriptions afterwards, for printing. -/
theorem mainStartup_recreates_existing_bindings :
    countCreates (mainStartup alreadySubscribedProvider "https://pub" "k" "s").1 = 2 ∧
    (mainStartup alreadySubscribedProvider "https://pub" "k" "s").2 =
      .ok [⟨"1", "trackingStarted", "https://pub/started-tracking"⟩,
           ⟨"2", "trackingStopped", "https://pub/stopped-tracking"⟩] := by
  exact ⟨rfl, rfl⟩

/-- C1 amended: the startup subscription step performs no reconciliation.
Whenever sign-in succeeds with some token, the catalog fetch succeeds, and
the provider delivers responses to the two create requests (any status),
the run issues exactly one createSubscription call per desired binding —
the two POSTs, in desired order — with no dependence on the listed
existing subscriptions; so a second identical run issues the same two
createSubscription calls again. -/
theorem mainStartup_creates_unconditionally (provider : Provider) (pu k s t : String)
    (h1 : (sign_in provider k s).2 = .ok t)
    (h2 : ∃ es, (fetch_events provider t).2 = .ok es)
    (h3 : (provider (startedCreateReq t pu)).isSome = true)
    (h4 : (provider (stoppedCreateReq t pu)).isSome = true) :
    (mainStartup provider pu k s).1.filter isCreateCall =
      [startedCreateReq t pu, stoppedCreateReq t pu] := by
  obtain ⟨es, h2⟩ := h2
  obtain ⟨r3, hr3⟩ := Option.isSome_iff_exists.mp h3
  obtain ⟨r4, hr4⟩ := Option.isSome_iff_exists.mp h4
  have e1 : sign_in provider k s = ([signInReq k s], .ok t) := by
    rw [← sign_in_trace provider k s, ← h1]
  have e2 : fetch_events provider t = ([fetchEventsReq t], .ok es) := by
    rw [← fetch_events_trace provider t, ← h2]
  have e3 : subscribe_to_started_tracking provider t pu =
      ([startedCreateReq t pu], .ok ()) := by
    unfold subscribe_to_started_tracking
    rw [hr3]
  have e4 : subscribe_to_stopped_tracking provider t pu =
      ([stoppedCreateReq t pu], .ok ()) := by
    unfold subscribe_to_stopped_tracking
    rw [hr4]
  have e5 : list_subscriptions provider t =
      ([listSubsReq t], (list_subscriptions provider t).2) := by
    rw [← list_subscriptions_trace provider t]
  unfold mainStartup
  rw [e1]
  dsimp only
  rw [e2]
  dsimp only
  rw [e3]
  dsimp only
  rw [e4]
  dsimp only
  rw [e5]
  rfl

/-- Witness for the amended C1 theorem at the concrete provider whose
listing already contains both bindings. -/
theorem mainStartup_creates_unconditionally_witness :
    (mainStartup alreadySubscribedProvider "https://pub" "k" "s").1.filter isCreateCall =
      [startedCreateReq "tok" "https://pub", stoppedCreateReq "tok" "https://pub"] :=
  mainStartup_creates_unconditionally alreadySubscribedProvider "https://pub" "k" "s" "tok"
    rfl ⟨["trackingStarted", "trackingStopped"], rfl⟩ rfl rfl

/-! ## C2 -/

/-- A provider on which sign-in and the catalog fetch succeed, but every
POST to the subscription endpoint fails at the transport level
(`send()` errors). -/
def createFailsProvider : Provider := fun req =>
  match req.method with
  | .POST =>
    if req.reqUrl = url "/developer/sign-in" then
      some ⟨200, .obj [("token", .str "tok")]⟩
    else none
  | .GET =>
    if req.reqUrl = url "/webhooks/event" then
      some ⟨200, .obj [("events", .arr [.str "trackingStarted", .str "trackingStopped"])]⟩
    else if req.reqUrl = url "/webhooks/subscription" then
      some ⟨200, bothPresentSubsBody⟩
    else none

/-- C2 counterexample: no partial-failure isolation.  On a provider where
the createSubscription call for the first desired binding
(trackingStarted) fails in transport, the whole run returns that error and
the trace contains only the first create call: the trackingStopped create
attempt is never performed and no batch result pairing successes with
failures is produced. -/
theorem mainStartup_aborts_on_first_create_failure_cx :
    (mainStartup createFailsProvider "https://pub" "k" "s").2 = .error .transport ∧
    (mainStartup createFailsProvider "https://pub" "k" "s").1.filter isCreateCall =
      [startedCreateReq "tok" "https://pub"] := by
  exact ⟨rfl, rfl⟩

/-- C2 amended: `main` is fail-fast, not partial-failure tolerant.  For
every run reaching the subscription step, if the create call for the first
desired binding (trackingStarted) fails, the `?` operator aborts the run
with that error: the create call for the second desired binding
(trackingStopped) is never issued, and the run's result is the bare error
rather than a batch of per-binding outcomes. -/
theorem mainStartup_aborts_on_first_create_failure (provider : Provider) (pu k s t : String)
    (h1 : (sign_in provider k s).2 = .ok t)
    (h2 : ∃ es, (fetch_events provider t).2 = .ok es)
    (h3 : provider (startedCreateReq t pu) = none) :
    (mainStartup provider pu k s).2 = .error .transport ∧
    (mainStartup provider pu k s).1.filter isCreateCall = [startedCreateReq t pu] := by
  obtain ⟨es, h2⟩ := h2
  have e1 : sign_in provider k s = ([signInReq k s], .ok t) := by
    rw [← sign_in_trace provider k s, ← h1]
  have e2 : fetch_events provider t = ([fetchEventsReq t], .ok es) := by
    rw [← fetch_events_trace provider t, ← h2]
  have e3 : subscribe_to_started_tracking provider t pu =
      ([startedCreateReq t pu], .error .transport) := by
    unfold subscribe_to_started_tracking
    rw [h3]
  unfold mainStartup
  rw [e1]
  dsimp only
  rw [e2]
  dsimp only
  rw [e3]
  exact ⟨rfl, rfl⟩

/-- Witness for the amended C2 theorem at the concrete transport-failing
provider. -/
theorem mainStartup_aborts_on_first_create_failure_witness :
    (mainStartup createFailsProvider "https://pub" "k" "s").2 = .error .transport ∧
    (mainStartup createFailsProvider "https://pub" "k" "s").1.filter isCreateCall =
      [startedCreateReq "tok" "https://pub"] :=
  mainStartup_aborts_on_first_create_failure createFailsProvider "https://pub" "k" "s" "tok"
    rfl ⟨["trackingStarted", "trackingStopped"], rfl⟩ rfl

/-! ## C3 -/

/-- A provider family parameterized by the body of the event-catalog
response; everything else succeeds, with the subscription listing already
containing both bindings. -/
def catalogProvider (events : Json) : Provider := fun req =>
  match req.method with
  | .POST =>
    if req.reqUrl = url "/developer/sign-in" then
      some ⟨200, .obj [("token", .str "tok")]⟩
    else if req.reqUrl = url "/webhooks/subscription" then
      some ⟨200, .obj []⟩
    else none
  | .GET =>
    if req.reqUrl = url "/webhooks/event" then
      some ⟨200, events⟩
    else if req.reqUrl = url "/webhooks/subscription" then
      some ⟨200, bothPresentSubsBody⟩
    else none

/-- C3 counterexample: no catalog validation.  On a provider whose event
catalog is empty — both desired kinds absent — the startup run does not
fail with a configuration error: it issues both createSubscription calls
and completes successfully. -/
theorem mainStartup_subscribes_despite_missing_kinds :
    countCreates (mainStartup (catalogProvider (.obj [("events", .arr [])]))
        "https://pub" "k" "s").1 = 2 ∧
    (mainStartup (catalogProvider (.obj [("events", .arr [])]))
        "https://pub" "k" "s").2 =
      .ok [⟨"1", "trackingStarted", "https://pub/started-tracking"⟩,
           ⟨"2", "trackingStopped", "https://pub/stopped-tracking"⟩] := by
  exact ⟨rfl, rfl⟩

/-- Mapping `Json.str` over strings and decoding the elements back with
`Json.asStr` is the identity. -/
theorem decodeList_asStr_map_str (es : List String) :
    decodeList Json.asStr (es.map Json.str) = some es := by
  induction es with
  | nil => rfl
  | cons a l ih => simp [decodeList, ih, Json.asStr]

/-- C3 amended: `main` fetches the event catalog but only prints it — it
performs no validation of the desired kinds against it.  For every
catalog contents `es`, including lists missing both desired kinds, the
startup run issues both createSubscription calls and completes without a
configuration error. -/
theorem mainStartup_ignores_catalog (es : List String) :
    countCreates (mainStartup (catalogProvider (.obj [("events", .arr (es.map .str))]))
        "https://pub" "k" "s").1 = 2 ∧
    (mainStartup (catalogProvider (.obj [("events", .arr (es.map .str))]))
        "https://pub" "k" "s").2 =
      .ok [⟨"1", "trackingStarted", "https://pub/started-tracking"⟩,
           ⟨"2", "trackingStopped", "https://pub/stopped-tracking"⟩] := by
  have e2 : fetch_events (catalogProvider (.obj [("events", .arr (es.map .str))])) "tok" =
      ([fetchEventsReq "tok"], .ok es) := by
    unfold fetch_events
    have hp : catalogProvider (.obj [("events", .arr (es.map .str))]) (fetchEventsReq "tok") =
        some ⟨200, .obj [("events", .arr (es.map .str))]⟩ := rfl
    rw [hp]
    dsimp only
    have hd : decodeEventsResponse (.obj [("events", .arr (es.map .str))]) = some ⟨es⟩ := by
      simp [decodeEventsResponse, Json.asObj, decodeArrField, List.lookup,
        decodeList_asStr_map_str, Option.bind]
    rw [hd]
  have e1 : sign_in (catalogProvider (.obj [("events", .arr (es.map .str))])) "k" "s" =
      ([signInReq "k" "s"], .ok "tok") := rfl
  unfold mainStartup
  rw [e1]
  dsimp only
  rw [e2]
  dsimp only
  exact ⟨rfl, rfl⟩

/-! ## C4 -/

/-- A well-formed note object: `text` null, no tags, no mentions. -/
def noteJson : Json := .obj [("text", .null), ("tags", .arr []), ("mentions", .arr [])]

def noteVal : Note := ⟨none, [], []⟩

/-- A well-formed activity object; `deviceSide` is absent. -/
def activityJson : Json :=
  .obj [("id", .str "a1"), ("name", .str "Work"), ("color", .str "#a1b2c3"),
        ("integration", .str "zei"), ("spaceId", .str "sp1")]

def activityVal : Activity := ⟨"a1", "Work", "#a1b2c3", "zei", "sp1", none⟩

/-- A well-formed currentTracking object. -/
def trackingJson : Json :=
  .obj [("id", .num 7), ("activity", activityJson),
        ("startedAt", .str "2021-01-01T10:00:00.000"), ("note", noteJson)]

def trackingVal : Tracking := ⟨7, activityVal, "2021-01-01T10:00:00.000", noteVal⟩

/-- A started-route envelope whose eventType tag is `tag`, otherwise
well-formed for the started shape. -/
def startedBodyWithTag (tag : String) : Json :=
  .obj [("userId", .str "u1"), ("eventType", .str tag),
        ("data", .obj [("currentTracking", trackingJson)])]

/-- C4 counterexample: a payload arriving on the started-tracking route
whose eventKind tag is `"trackingStopped"` (not the started kind) decodes
successfully as a `TrackingStartedPayload` — a silent coercion, not a
decode failure — and the route matches, invoking the handler and replying
200. -/
theorem started_decoder_accepts_mismatched_tag_cx :
    decodeTrackingStartedPayload (startedBodyWithTag "trackingStopped") =
      some ⟨"u1", "trackingStopped", ⟨trackingVal⟩⟩ ∧
    serve ⟨["started-tracking"], .POST, some (startedBodyWithTag "trackingStopped")⟩ =
      ⟨200, "OK"⟩ := by
  exact ⟨rfl, rfl⟩

/-- C4 amended: the started route's decoder requires an `eventType`
field that is a string but never compares its value with the route's
kind: a payload of the started shape decodes successfully for EVERY tag
value, carrying the tag through verbatim. -/
theorem started_decoder_ignores_tag_value (tag : String) :
    decodeTrackingStartedPayload (startedBodyWithTag tag) =
      some ⟨"u1", tag, ⟨trackingVal⟩⟩ := by
  rfl

/-! ## C5 -/

/-- Unfolding of the stopped-payload decoder on an object literal: the
three field decodes chained by `Option.bind`. -/
theorem decode_stopped_payload_fields (base : List (String × Json)) :
    decodeTrackingStoppedPayload (.obj base) =
      (decodeStrField base "userId").bind (fun u =>
      (decodeStrField base "eventType").bind (fun t =>
      ((base.lookup "data").bind decodeTrackingStoppedData).bind (fun d =>
      some ⟨u, t, d⟩))) := rfl

/-- Unfolding of the started-payload decoder on an object literal. -/
theorem decode_started_payload_fields (base : List (String × Json)) :
    decodeTrackingStartedPayload (.obj base) =
      (decodeStrField base "userId").bind (fun u =>
      (decodeStrField base "eventType").bind (fun t =>
      ((base.lookup "data").bind decodeTrackingStartedData).bind (fun d =>
      some ⟨u, t, d⟩))) := rfl

/-- Unfolding of the stopped-data decoder on an object literal. -/
theorem decode_stopped_data_fields (fields : List (String × Json)) :
    decodeTrackingStoppedData (.obj fields) =
      (decodeOptField fields "newTimeEntry" decodeTimeEntry).bind
        (fun nte => some ⟨nte⟩) := rfl

/-- C5: decode totality for the optional time entry.  For every stopped
envelope whose `data` object lacks the `newTimeEntry` field (and whose
`userId` and `eventType` are strings), decoding succeeds and yields a
payload with `new_time_entry = none` — serde's `Option<TimeEntry>`
defaults to `None` when the field is absent. -/
theorem stopped_decode_absent_newTimeEntry (u t : String)
    (dataFields : List (String × Json))
    (h : dataFields.lookup "newTimeEntry" = none) :
    decodeTrackingStoppedPayload
      (.obj [("userId", .str u), ("eventType", .str t), ("data", .obj dataFields)]) =
      some ⟨u, t, ⟨none⟩⟩ := by
  have hd : decodeTrackingStoppedData (Json.obj dataFields) = some ⟨none⟩ := by
    rw [decode_stopped_data_fields]
    unfold decodeOptField
    rw [h]
    rfl
  rw [decode_stopped_payload_fields]
  have e1 : decodeStrField [("userId", Json.str u), ("eventType", Json.str t),
      ("data", Json.obj dataFields)] "userId" = some u := rfl
  have e2 : decodeStrField [("userId", Json.str u), ("eventType", Json.str t),
      ("data", Json.obj dataFields)] "eventType" = some t := rfl
  have e3 : List.lookup "data" [("userId", Json.str u), ("eventType", Json.str t),
      ("data", Json.obj dataFields)] = some (Json.obj dataFields) := rfl
  rw [e1, e2, e3]
  dsimp only [Option.bind]
  rw [hd]

/-- Witness for the C5 theorem at a concrete empty `data` object. -/
theorem stopped_decode_absent_newTimeEntry_witness :
    decodeTrackingStoppedPayload
      (.obj [("userId", .str "u1"), ("eventType", .str "trackingStopped"),
             ("data", .obj [])]) =
      some ⟨"u1", "trackingStopped", ⟨none⟩⟩ :=
  stopped_decode_absent_newTimeEntry "u1" "trackingStopped" [] rfl

/-! ## C6 -/

/-- C6: a payload whose JSON object lacks `userId` fails to decode on the
started-tracking route; the route filter rejects with a body-deserialize
rejection (the handler branch is never taken, so the sink is not invoked)
and the served response is 400 Bad Request. -/
theorem started_route_rejects_missing_userId (fields : List (String × Json))
    (h : fields.lookup "userId" = none) :
    started_tracking_route ⟨["started-tracking"], .POST, some (.obj fields)⟩ =
      .decodeReject ∧
    serve ⟨["started-tracking"], .POST, some (.obj fields)⟩ = ⟨400, "Bad Request"⟩ := by
  have hdec : decodeTrackingStartedPayload (Json.obj fields) = none := by
    rw [decode_started_payload_fields]
    unfold decodeStrField
    rw [h]
    rfl
  have hstart : started_tracking_route ⟨["started-tracking"], .POST, some (.obj fields)⟩ =
      .decodeReject := by
    show (match (some (Json.obj fields)).bind decodeTrackingStartedPayload with
          | some p => RouteTry.matched (started_tracking_handler p)
          | none => RouteTry.decodeReject) = RouteTry.decodeReject
    dsimp only [Option.bind]
    rw [hdec]
  refine ⟨hstart, ?_⟩
  unfold serve
  rw [hstart]
  rfl

/-- Witness for the C6 theorem at the concrete empty JSON object. -/
theorem started_route_rejects_missing_userId_witness :
    started_tracking_route ⟨["started-tracking"], .POST, some (.obj [])⟩ =
      .decodeReject ∧
    serve ⟨["started-tracking"], .POST, some (.obj [])⟩ = ⟨400, "Bad Request"⟩ :=
  started_route_rejects_missing_userId [] rfl

/-! ## C7 -/

/-- C7 counterexample: the wire field name is NOT `targetUrl`.  The
create-subscription body serialized from `EventRequest` has no
`targetUrl` member — its members are `event` and `target_url` — and a
listed subscription object carrying its target URL under `targetUrl`
fails to decode, while the `target_url` spelling succeeds. -/
theorem wire_field_name_cx :
    (encodeEventRequest ⟨"trackingStarted", "https://pub/started-tracking"⟩).getField
        "targetUrl" = none ∧
    encodeEventRequest ⟨"trackingStarted", "https://pub/started-tracking"⟩ =
      .obj [("event", .str "trackingStarted"),
            ("target_url", .str "https://pub/started-tracking")] ∧
    decodeSubscription (.obj [("id", .str "1"), ("event", .str "trackingStarted"),
        ("targetUrl", .str "https://pub/started-tracking")]) = none := by
  exact ⟨rfl, rfl, rfl⟩

/-- C7 amended: the target-URL field on the wire is named `target_url` in
both directions (the Rust structs `EventRequest` and `Subscription` carry
no `rename_all` attribute): every create request serializes as
`{event, target_url}` and every subscription object decodes from
`{id, event, target_url}`. -/
theorem wire_field_name_target_url (e t i ev tu : String) :
    encodeEventRequest ⟨e, t⟩ = .obj [("event", .str e), ("target_url", .str t)] ∧
    decodeSubscription (.obj [("id", .str i), ("event", .str ev),
        ("target_url", .str tu)]) = some ⟨i, ev, tu⟩ := by
  exact ⟨rfl, rfl⟩

/-! ## C8 -/

/-- A provider delivering the same fixed response to every request. -/
def constProvider (resp : HttpResponse) : Provider := fun _ => some resp

/-- C8 counterexample: a createSubscription call that receives a non-2xx
response (here a 500) does NOT fail — `send()` succeeds on any delivered
status and the response is dropped, so the call returns `Ok(())`. -/
theorem subscribe_ok_on_500_cx :
    subscribe_to_started_tracking
        (constProvider ⟨500, .obj [("message", .str "server error")]⟩) "tok" "https://pub" =
      ([startedCreateReq "tok" "https://pub"], .ok ()) := by
  exact rfl

/-- C8 amended: the create-subscription calls never inspect the HTTP
response status: for every delivered response — any status, any body —
both calls succeed, and the only failure mode is a transport error of
`send()` itself. -/
theorem subscribe_ignores_response_status (st : Nat) (b : Json) (tok pu : String) :
    subscribe_to_started_tracking (constProvider ⟨st, b⟩) tok pu =
      ([startedCreateReq tok pu], .ok ()) ∧
    subscribe_to_stopped_tracking (constProvider ⟨st, b⟩) tok pu =
      ([stoppedCreateReq tok pu], .ok ()) ∧
    subscribe_to_started_tracking (fun _ => none) tok pu =
      ([startedCreateReq tok pu], .error .transport) := by
  exact ⟨rfl, rfl, rfl⟩

/-! ## C9 -/

/-- Association-list lookups are stable under appending further fields
when the key is already bound. -/
theorem lookup_append_of_some {k : String} {v : Json}
    {l₁ : List (String × Json)} (l₂ : List (String × Json))
    (h : l₁.lookup k = some v) : (l₁ ++ l₂).lookup k = some v := by
  induction l₁ with
  | nil => simp [List.lookup] at h
  | cons a l ih =>
    obtain ⟨ka, va⟩ := a
    rw [List.cons_append]
    rw [List.lookup] at h ⊢
    cases hk : (k == ka)
    · rw [hk] at h
      exact ih h
    · rw [hk] at h
      exact h

/-- C9: forward-compatible decoding.  For every envelope object that
binds the required top-level fields `userId`, `eventType` and `data`,
appending arbitrary extra/unknown fields changes nothing: both route
decoders give the same result on the extended object as on the original —
in particular, when the original decodes successfully the extended one
decodes to the identical event. -/
theorem decode_ignores_extra_fields (base extra : List (String × Json))
    (ju jt jd : Json)
    (hu : base.lookup "userId" = some ju)
    (ht : base.lookup "eventType" = some jt)
    (hd : base.lookup "data" = some jd) :
    decodeTrackingStartedPayload (.obj (base ++ extra)) =
      decodeTrackingStartedPayload (.obj base) ∧
    decodeTrackingStoppedPayload (.obj (base ++ extra)) =
      decodeTrackingStoppedPayload (.obj base) := by
  have hu' := lookup_append_of_some extra hu
  have ht' := lookup_append_of_some extra ht
  have hd' := lookup_append_of_some extra hd
  constructor
  · rw [decode_started_payload_fields, decode_started_payload_fields]
    unfold decodeStrField
    rw [hu, ht, hd, hu', ht', hd']
  · rw [decode_stopped_payload_fields, decode_stopped_payload_fields]
    unfold decodeStrField
    rw [hu, ht, hd, hu', ht', hd']

/-- Witness for the C9 theorem: the well-formed started envelope fixture
with an extra unknown field appended. -/
theorem decode_ignores_extra_fields_witness :
    decodeTrackingStartedPayload
        (.obj ([("userId", .str "u1"), ("eventType", .str "trackingStarted"),
                ("data", .obj [("currentTracking", trackingJson)])] ++
               [("unknownField", .null)])) =
      decodeTrackingStartedPayload
        (.obj [("userId", .str "u1"), ("eventType", .str "trackingStarted"),
               ("data", .obj [("currentTracking", trackingJson)])]) ∧
    decodeTrackingStoppedPayload
        (.obj ([("userId", .str "u1"), ("eventType", .str "trackingStarted"),
                ("data", .obj [("currentTracking", trackingJson)])] ++
               [("unknownField", .null)])) =
      decodeTrackingStoppedPayload
        (.obj [("userId", .str "u1"), ("eventType", .str "trackingStarted"),
               ("data", .obj [("currentTracking", trackingJson)])]) :=
  decode_ignores_extra_fields
    [("userId", .str "u1"), ("eventType", .str "trackingStarted"),
     ("data", .obj [("currentTracking", trackingJson)])]
    [("unknownField", .null)]
    (.str "u1") (.str "trackingStarted") (.obj [("currentTracking", trackingJson)])
    rfl rfl rfl

/-! ## C10 -/

/-- C10: the health route carries no method filter.  For every request to
path `/health` — any method, any body — the composed server replies 200
with the fixed body `"OK"`, with no dependence on authentication or on
the startup reconciliation having run: `serve` is defined independently
of any provider state. -/
theorem health_route_any_method (m : InMethod) (b : Option Json) :
    serve ⟨["health"], m, b⟩ = ⟨200, "OK"⟩ := by
  cases m <;> rfl

end Timeular
